import Mathlib

/-!
Verification development for the Maya model sanity checker
(modelSanityChecker.py and checker.py): a shallow embedding of the
checker registry metadata, the owner.component aggregation algorithm
shared by the oracle-aggregated checkers, the widget check and fix
entry points, the category toggle, and the batch runner, together with
theorems settling the frozen specification claims.

External Maya collaborators (cmds.checkMesh, cmds.listRelatives,
cmds.polyInfo, cmds.objExists, ...) are passed in as explicit function
parameters; Python strings are modelled as lists of characters so that
the string splitting done by the checkers is fully executable.
-/

namespace SanityChecker

/-- Python str values manipulated by the checkers (full DAG paths,
component names, layer names) are modelled as lists of characters. -/
abbrev PyStr := List Char

/-- Python s.split(sep) for a one-character separator: splits at every
occurrence of sep, keeps empty pieces, and returns a single piece for a
string with no separator, exactly like str.split with an argument. -/
def pySplit (sep : Char) : List Char → List (List Char)
  | [] => [[]]
  | c :: rest =>
    let r := pySplit sep rest
    if c = sep then [] :: r
    else (c :: r.headD []) :: r.tail

/-- The Error record of checker.py (lines 32-42): one finding, carrying
the full path of the owning object, the optional list of offending
components, and the short name (the text displayed in the UI list),
computed as fullPath.split with the pipe character, last piece. -/
structure Error where
  longName : PyStr
  components : Option (List PyStr)
  shortName : PyStr
deriving DecidableEq

/-- Constructor of Error (checker.py lines 35-42): components is the
errors argument (None when absent), shortName is the last piece of the
full path split on the hierarchy separator. -/
def mkError (fullPath : PyStr) (errors : Option (List PyStr)) : Error :=
  { longName := fullPath
    components := errors
    shortName := (pySplit '|' fullPath).getLastD [] }

/-- Identity and configuration metadata of a checker class
(checker.py BaseChecker and its subclasses): class attributes
sitting on each of the 36 registry entries. -/
structure BaseChecker where
  name : String
  category : String
  isWarning : Bool
  isEnabled : Bool
  isFixable : Bool
deriving DecidableEq

/-- Python BaseChecker eq method (checker.py lines 59-60): it compares
the name of self with the name of self, never consulting other. -/
def BaseChecker.pyEq (self _other : BaseChecker) : Bool :=
  self.name == self.name

/-- Python BaseChecker ne method (checker.py lines 62-63):
not (self == other). -/
def BaseChecker.pyNe (self other : BaseChecker) : Bool :=
  !(self.pyEq other)

/-- Checker metadata, one per concrete class, flags as declared in
checker.py (defaults: isWarning false, isEnabled true, isFixable false). -/
def NameChecker : BaseChecker :=
  { name := "Name", category := "Name",
    isWarning := false, isEnabled := false, isFixable := false }

/-- ShapeNameChecker metadata (checker.py lines 488-492). -/
def ShapeNameChecker : BaseChecker :=
  { name := "ShapeName", category := "Name",
    isWarning := false, isEnabled := true, isFixable := true }

/-- HistoryChecker metadata (checker.py lines 527-532). -/
def HistoryChecker : BaseChecker :=
  { name := "History", category := "Node",
    isWarning := false, isEnabled := true, isFixable := true }

/-- TransformChecker metadata (checker.py lines 558-561). -/
def TransformChecker : BaseChecker :=
  { name := "Transform", category := "Attribute",
    isWarning := false, isEnabled := true, isFixable := false }

/-- LockedTransformChecker metadata (checker.py lines 593-597). -/
def LockedTransformChecker : BaseChecker :=
  { name := "Locked Transform", category := "Attribute",
    isWarning := false, isEnabled := true, isFixable := true }

/-- SmoothPreviewChecker metadata (checker.py lines 629-633). -/
def SmoothPreviewChecker : BaseChecker :=
  { name := "Smooth Preview", category := "Attribute",
    isWarning := false, isEnabled := true, isFixable := true }

/-- KeyframeChecker metadata (checker.py lines 657-661). -/
def KeyframeChecker : BaseChecker :=
  { name := "Keyframe", category := "Attribute",
    isWarning := false, isEnabled := true, isFixable := true }

/-- TriangleChecker metadata (checker.py lines 91-96). -/
def TriangleChecker : BaseChecker :=
  { name := "Triangles", category := "Topology",
    isWarning := true, isEnabled := true, isFixable := false }

/-- NgonChecker metadata (checker.py lines 125-128). -/
def NgonChecker : BaseChecker :=
  { name := "N-gons", category := "Topology",
    isWarning := false, isEnabled := true, isFixable := false }

/-- NonmanifoldEdgeChecker metadata (checker.py lines 157-160). -/
def NonmanifoldEdgeChecker : BaseChecker :=
  { name := "Nonmanifold Edges", category := "Topology",
    isWarning := false, isEnabled := true, isFixable := false }

/-- NonmanifoldVertexChecker metadata (checker.py lines 189-192). -/
def NonmanifoldVertexChecker : BaseChecker :=
  { name := "Nonmanifold Vertices", category := "Topology",
    isWarning := false, isEnabled := true, isFixable := false }

/-- LaminaFaceChecker metadata (checker.py lines 216-219). -/
def LaminaFaceChecker : BaseChecker :=
  { name := "Lamina Faces", category := "Topology",
    isWarning := false, isEnabled := true, isFixable := false }

/-- BiValentFaceChecker metadata (checker.py lines 248-251). -/
def BiValentFaceChecker : BaseChecker :=
  { name := "Bi-valent Faces", category := "Topology",
    isWarning := false, isEnabled := true, isFixable := false }

/-- ZeroAreaFaceChecker metadata (checker.py lines 280-283). -/
def ZeroAreaFaceChecker : BaseChecker :=
  { name := "Zero Area Faces", category := "Topology",
    isWarning := false, isEnabled := true, isFixable := false }

/-- MeshBorderEdgeChecker metadata (checker.py lines 314-318). -/
def MeshBorderEdgeChecker : BaseChecker :=
  { name := "Mesh Border Edges", category := "Topology",
    isWarning := true, isEnabled := true, isFixable := false }

/-- CreaseEdgeChecker metadata (checker.py lines 347-350). -/
def CreaseEdgeChecker : BaseChecker :=
  { name := "Crease Edges", category := "Topology",
    isWarning := false, isEnabled := true, isFixable := false }

/-- ZeroLengthEdgeChecker metadata (checker.py lines 379-382). -/
def ZeroLengthEdgeChecker : BaseChecker :=
  { name := "Zero-length Edges", category := "Topology",
    isWarning := false, isEnabled := true, isFixable := false }

/-- VertexPntsChecker metadata (checker.py lines 411-415). -/
def VertexPntsChecker : BaseChecker :=
  { name := "Vertex Pnts Attribute", category := "Attribute",
    isWarning := false, isEnabled := true, isFixable := true }

/-- EmptyGeometryChecker metadata (checker.py lines 442-446). -/
def EmptyGeometryChecker : BaseChecker :=
  { name := "Empty Geometry", category := "Topology",
    isWarning := false, isEnabled := true, isFixable := false }

/-- UnusedVertexChecker metadata (checker.py lines 694-698). -/
def UnusedVertexChecker : BaseChecker :=
  { name := "Unused Vertices", category := "Topology",
    isWarning := false, isEnabled := true, isFixable := false }

/-- IntermediateObjectChecker metadata (checker.py lines 732-736). -/
def IntermediateObjectChecker : BaseChecker :=
  { name := "Intermediate Object", category := "Node",
    isWarning := false, isEnabled := true, isFixable := true }

/-- InstanceShapeChecker metadata (checker.py lines 769-772). -/
def InstanceShapeChecker : BaseChecker :=
  { name := "Instance Shape", category := "Node",
    isWarning := false, isEnabled := true, isFixable := false }

/-- ConnectionChecker metadata (checker.py lines 791-794). -/
def ConnectionChecker : BaseChecker :=
  { name := "Connections", category := "Node",
    isWarning := false, isEnabled := true, isFixable := false }

/-- DisplayLayerCheck metadata (checker.py lines 813-817). -/
def DisplayLayerCheck : BaseChecker :=
  { name := "Display layers", category := "other",
    isWarning := false, isEnabled := true, isFixable := true }

/-- UnusedLayerChecker metadata (checker.py lines 844-848). -/
def UnusedLayerChecker : BaseChecker :=
  { name := "Unused layers", category := "other",
    isWarning := false, isEnabled := true, isFixable := true }

/-- Map1Checker metadata (checker.py lines 874-878). -/
def Map1Checker : BaseChecker :=
  { name := "UVSet to map1", category := "UV",
    isWarning := false, isEnabled := true, isFixable := true }

/-- NegativeUvChecker metadata (checker.py lines 901-904). -/
def NegativeUvChecker : BaseChecker :=
  { name := "UVs in negative space", category := "UV",
    isWarning := false, isEnabled := true, isFixable := false }

/-- UdimIntersectionChecker metadata (checker.py lines 944-947). -/
def UdimIntersectionChecker : BaseChecker :=
  { name := "UDIM intersection", category := "UV",
    isWarning := false, isEnabled := true, isFixable := false }

/-- UnassignedUvChecker metadata (checker.py lines 977-980). -/
def UnassignedUvChecker : BaseChecker :=
  { name := "Unassigned UVs", category := "UV",
    isWarning := false, isEnabled := true, isFixable := false }

/-- UnmappedPolygonFaceChecker metadata (checker.py lines 1010-1013). -/
def UnmappedPolygonFaceChecker : BaseChecker :=
  { name := "Unmapped polygon faces", category := "UV",
    isWarning := false, isEnabled := true, isFixable := false }

/-- ZeroAreaUVFaceChecker metadata (checker.py lines 1043-1046). -/
def ZeroAreaUVFaceChecker : BaseChecker :=
  { name := "Zero area UV Faces", category := "UV",
    isWarning := false, isEnabled := true, isFixable := false }

/-- ConcaveUVChecker metadata (checker.py lines 1075-1078). -/
def ConcaveUVChecker : BaseChecker :=
  { name := "Concave UV Faces", category := "UV",
    isWarning := false, isEnabled := true, isFixable := false }

/-- ReversedUVChecker metadata (checker.py lines 1107-1111). -/
def ReversedUVChecker : BaseChecker :=
  { name := "Reversed UV Faces", category := "UV",
    isWarning := true, isEnabled := true, isFixable := false }

/-- UvOverlapChecker metadata (checker.py lines 1140-1144). -/
def UvOverlapChecker : BaseChecker :=
  { name := "UV Overlaps", category := "UV",
    isWarning := false, isEnabled := false, isFixable := false }

/-- SelectionSetChecker metadata (checker.py lines 1172-1176). -/
def SelectionSetChecker : BaseChecker :=
  { name := "Selection Sets", category := "other",
    isWarning := false, isEnabled := true, isFixable := true }

/-- ColorSetChecker metadata (checker.py lines 1228-1232). -/
def ColorSetChecker : BaseChecker :=
  { name := "Color Sets", category := "other",
    isWarning := false, isEnabled := true, isFixable := true }

/-- The registry (checker.py lines 1264-1300), in declaration order. -/
def CHECKERS : List BaseChecker :=
  [NameChecker, ShapeNameChecker, HistoryChecker, TransformChecker,
   LockedTransformChecker, SmoothPreviewChecker, KeyframeChecker,
   TriangleChecker, NgonChecker, NonmanifoldEdgeChecker,
   NonmanifoldVertexChecker, LaminaFaceChecker, BiValentFaceChecker,
   ZeroAreaFaceChecker, MeshBorderEdgeChecker, CreaseEdgeChecker,
   ZeroLengthEdgeChecker, VertexPntsChecker, EmptyGeometryChecker,
   UnusedVertexChecker, IntermediateObjectChecker, InstanceShapeChecker,
   ConnectionChecker, DisplayLayerCheck, UnusedLayerChecker, Map1Checker,
   NegativeUvChecker, UdimIntersectionChecker, UnassignedUvChecker,
   UnmappedPolygonFaceChecker, ZeroAreaUVFaceChecker, ConcaveUVChecker,
   ReversedUVChecker, UvOverlapChecker, SelectionSetChecker,
   ColorSetChecker]

/-- Membership test base in errorsDict of the aggregation loop, using
string equality, as Python dict key lookup does. -/
def hasKey (d : List (PyStr × List PyStr)) (base : PyStr) : Bool :=
  d.any (fun p => p.1 == base)

/-- One iteration body of the aggregation loop (checker.py lines
106-112): if base is already a key, append e to its group, else add a
new key at the end (Python dicts preserve insertion order). -/
def insertComp (d : List (PyStr × List PyStr)) (base e : PyStr) :
    List (PyStr × List PyStr) :=
  if hasKey d base then
    d.map (fun p => if p.1 == base then (p.1, p.2 ++ [e]) else p)
  else d ++ [(base, [e])]

/-- The aggregation loop over the raw oracle strings (checker.py lines
106-112): base, comp = e.split with the dot separator raises ValueError
unless the split has exactly two pieces, aborting the loop. -/
def buildDict : List PyStr → List (PyStr × List PyStr) →
    Except String (List (PyStr × List PyStr))
  | [], d => Except.ok d
  | e :: rest, d =>
    match pySplit '.' e with
    | [base, _comp] => buildDict rest (insertComp d base e)
    | _ => Except.error "ValueError: unpack"

/-- Concatenation of all group lists of the dict, in insertion order. -/
def dictVals : List (PyStr × List PyStr) → List PyStr
  | [] => []
  | p :: rest => p.2 ++ dictVals rest

/-- Concatenation of the components lists of a finding list (None
counted as empty). -/
def allComponents : List Error → List PyStr
  | [] => []
  | f :: rest => f.components.getD [] ++ allComponents rest

/-- Owner of a raw identifier: the piece before the first dot, which is
the base bound by the unpacking when the split has two pieces. -/
def ownerOf (e : PyStr) : PyStr := (pySplit '.' e).headD []

/-- TriangleChecker.checkIt (checker.py lines 98-119). The oracle call
cmds.checkMesh with defect class 0 is passed in as its result (ok with
the raw identifier list, or error when the call raises). The method
clears self.errors first, then aggregates; the returned pair is (what
the call returns or raises, the value left in self.errors). -/
def TriangleChecker.checkIt (checkMesh0 : Except String (List PyStr))
    (_prevErrors : List Error) : Except String (List Error) × List Error :=
  match checkMesh0 with
  | Except.error m => (Except.error m, [])
  | Except.ok errs =>
    match buildDict errs [] with
    | Except.error m => (Except.error m, [])
    | Except.ok d =>
      let es := d.map (fun p => mkError p.1 (some p.2))
      (Except.ok es, es)

/-- ZeroAreaFaceChecker.checkIt (checker.py lines 285-308). The
maxFaceArea value is read from settings before self.errors is cleared,
so a missing settings object raises while the previous findings are
still cached; after the clear the shape is the shared aggregation. -/
def ZeroAreaFaceChecker.checkIt (settings : Option Rat)
    (checkMesh5 : Rat → Except String (List PyStr))
    (prevErrors : List Error) : Except String (List Error) × List Error :=
  match settings with
  | none =>
    (Except.error "AttributeError: NoneType has no attribute getSettings",
     prevErrors)
  | some mfa =>
    match checkMesh5 mfa with
    | Except.error m => (Except.error m, [])
    | Except.ok errs =>
      match buildDict errs [] with
      | Except.error m => (Except.error m, [])
      | Except.ok d =>
        let es := d.map (fun p => mkError p.1 (some p.2))
        (Except.ok es, es)

/-- NonmanifoldVertexChecker.checkIt (checker.py lines 194-210).
cmds.listRelatives is modelled as a function returning none when Maya
returns None (no matching relatives, in particular for an empty object
list); the code iterates the result without an or-empty guard, so a
None result raises TypeError. cmds.polyInfo may raise (error case,
swallowed by the except RuntimeError) or return None or a list. -/
def NonmanifoldVertexChecker.checkIt
    (listRelativesMesh : List PyStr → Option (List PyStr))
    (polyInfoNmv : PyStr → Except String (Option (List PyStr)))
    (objs : List PyStr) : Except String (List Error) × List Error :=
  match listRelativesMesh objs with
  | none => (Except.error "TypeError: NoneType object is not iterable", [])
  | some children =>
    let es := children.foldl (fun acc obj =>
      match polyInfoNmv obj with
      | Except.error _ => acc
      | Except.ok none => acc
      | Except.ok (some errs) =>
        if errs.isEmpty then acc else acc ++ [mkError obj (some errs)]) []
    (Except.ok es, es)

/-- IntermediateObjectChecker.checkIt (checker.py lines 738-751): same
missing or-empty guard on cmds.listRelatives, so a None result (empty
objects list, or no mesh descendants) raises TypeError. -/
def IntermediateObjectChecker.checkIt
    (listRelativesMesh : List PyStr → Option (List PyStr))
    (getAttrIntermediate : PyStr → Bool)
    (root : List PyStr) : Except String (List Error) × List Error :=
  match listRelativesMesh root with
  | none => (Except.error "TypeError: NoneType object is not iterable", [])
  | some meshes =>
    let es := meshes.foldl (fun acc mesh =>
      if getAttrIntermediate mesh then acc ++ [mkError mesh none] else acc) []
    (Except.ok es, es)

/-- The name of the default display layer, always present in a Maya
scene. -/
def defaultLayer : PyStr :=
  ['d', 'e', 'f', 'a', 'u', 'l', 't', 'L', 'a', 'y', 'e', 'r']

/-- UnusedLayerChecker.checkIt (checker.py lines 850-864): ignores the
objects argument entirely; lists all display layers, removes
defaultLayer (list.remove raises ValueError when absent, with
self.errors already cleared), and reports layers with no members. -/
def UnusedLayerChecker.checkIt
    (lsDisplayLayers : List PyStr)
    (layerMembers : PyStr → Option (List PyStr))
    (_root : List PyStr) : Except String (List Error) × List Error :=
  if defaultLayer ∈ lsDisplayLayers then
    let layers := lsDisplayLayers.erase defaultLayer
    let es := layers.foldl (fun acc layer =>
      match layerMembers layer with
      | none => acc ++ [mkError layer (some [layer])]
      | some _ => acc) []
    (Except.ok es, es)
  else (Except.error "ValueError: list.remove", [])

/-- The suffix appended to the parent name by ShapeNameChecker.fixIt. -/
def shapeSuffix : PyStr := ['S', 'h', 'a', 'p', 'e']

/-- ShapeNameChecker.fixIt (checker.py lines 519-524): for each cached
finding it asks Maya for the parent of the shape and renames; the
cmds.listRelatives call raises ValueError when the shape no longer
exists, and there is no guard, so the loop aborts there. parentOf is
that Maya call; the result lists the performed renames in order. -/
def ShapeNameChecker.fixIt (parentOf : PyStr → Except String PyStr) :
    List Error → Except String (List (PyStr × PyStr))
  | [] => Except.ok []
  | e :: rest =>
    match parentOf e.longName with
    | Except.error m => Except.error m
    | Except.ok parent =>
      match ShapeNameChecker.fixIt parentOf rest with
      | Except.error m => Except.error m
      | Except.ok ops => Except.ok ((e.longName, parent ++ shapeSuffix) :: ops)

/-- VertexPntsChecker.fixIt (checker.py lines 430-440): guards every
finding with cmds.objExists and swallows RuntimeError from the vertex
reset, so stale owners are skipped; the result lists the objects the
fix was applied to, in order. -/
def VertexPntsChecker.fixIt (objExists : PyStr → Bool) :
    List Error → List PyStr
  | [] => []
  | e :: rest =>
    if objExists e.longName then
      e.longName :: VertexPntsChecker.fixIt objExists rest
    else VertexPntsChecker.fixIt objExists rest

/-- LockedTransformChecker.fixIt (checker.py lines 623-626): unlocks
the nine transform attributes of each cached owner with no existence
guard; cmds.setAttr raises ValueError on a stale owner, aborting the
loop. The result lists the unlocked objects in order. -/
def LockedTransformChecker.fixIt (objExists : PyStr → Bool) :
    List Error → Except String (List PyStr)
  | [] => Except.ok []
  | e :: rest =>
    if objExists e.longName then
      match LockedTransformChecker.fixIt objExists rest with
      | Except.error m => Except.error m
      | Except.ok l => Except.ok (e.longName :: l)
    else Except.error "ValueError: setAttr on missing object"

/-- The Maya scene context a CheckerWidget call runs in: the current
selection (cmds.ls with the sl flag) and the descendant transforms of a
path (cmds.listRelatives with children, ad, fullPath, type transform,
with the or-empty guard of modelSanityChecker.py line 129-134). -/
structure SceneCtx where
  selection : List PyStr
  childTransforms : PyStr → List PyStr

/-- Mutable state a CheckerWidget call touches: the enablement flag and
the cached findings of its checker. -/
structure CheckerWidgetState where
  isEnabled : Bool
  errors : List Error
deriving DecidableEq

/-- CheckerWidget.check (modelSanityChecker.py lines 118-138): returns
immediately when the checker is disabled; otherwise resolves the target
from the explicit path, or from the current selection head, warning and
returning when the selection is empty; then runs doCheck, which calls
checkIt on children ++ [path]. checkIt here is a function from the
target object set to the findings it computes and caches. The second
component is the target checkIt was invoked on (none when it was not
invoked). -/
def CheckerWidget.check (ctx : SceneCtx)
    (checkIt : List PyStr → List Error) (path : Option PyStr)
    (st : CheckerWidgetState) : CheckerWidgetState × Option (List PyStr) :=
  if st.isEnabled then
    match path with
    | some p =>
      let objs := ctx.childTransforms p ++ [p]
      ({ st with errors := checkIt objs }, some objs)
    | none =>
      match ctx.selection with
      | [] => (st, none)
      | s :: _ =>
        let objs := ctx.childTransforms s ++ [s]
        ({ st with errors := checkIt objs }, some objs)
  else (st, none)

/-- CheckerWidget.fix (modelSanityChecker.py lines 165-172): returns
immediately when disabled; otherwise calls fixIt and then re-runs check
with no path argument, so the re-check target is derived from the
selection at fix time. checkItAfterFix is the checkIt behaviour against
the post-fix scene. The middle component records whether fixIt was
invoked; the last one is the target of the re-check (none when the
re-check did not invoke checkIt). -/
def CheckerWidget.fix (ctx : SceneCtx)
    (checkItAfterFix : List PyStr → List Error)
    (st : CheckerWidgetState) :
    CheckerWidgetState × Bool × Option (List PyStr) :=
  if st.isEnabled then
    let r := CheckerWidget.check ctx checkItAfterFix none st
    (r.1, true, r.2)
  else (st, false, none)

/-- Loop body of Separator.checkboxToggle (modelSanityChecker.py lines
50-55): when the separator category equals the checker category of the
widget, setEnabled is called with state == 2 (Qt checked), writing the
checker isEnabled flag; otherwise the widget is untouched. -/
def Separator.toggleOne (category : String) (state : Nat)
    (w : BaseChecker) : BaseChecker :=
  if category == w.category then
    if state == 2 then { w with isEnabled := true }
    else { w with isEnabled := false }
  else w

/-- Separator.checkboxToggle (modelSanityChecker.py lines 48-55):
applies the toggle to every checker widget of the window. -/
def Separator.checkboxToggle (category : String) (state : Nat)
    (ws : List BaseChecker) : List BaseChecker :=
  ws.map (Separator.toggleOne category state)

/-- One registry entry as seen by ModelSanityChecker.checkAll : the
enablement flag, the cached findings before the batch, and the result
of this widget checkIt on the batch target (error carries the message
and the cache the failing checkIt left behind; the oracle-aggregated
checkers leave an empty cache because they clear self.errors before
calling the oracle). -/
structure BatchSlot where
  isEnabled : Bool
  outcome : Except (String × List Error) (List Error)
  cached : List Error

/-- ModelSanityChecker.checkAll (modelSanityChecker.py lines 301-335):
iterates the widgets in registry order, skipping disabled ones, calling
widget.check on each enabled one with no exception handling, so a raise
propagates out of the loop. The result pairs every slot with a flag
recording whether its check ran, together with the escaped exception
message, if any; slots after a raise are returned untouched. -/
def ModelSanityChecker.checkAll :
    List BatchSlot → List (BatchSlot × Bool) × Option String
  | [] => ([], none)
  | s :: rest =>
    if s.isEnabled then
      match s.outcome with
      | Except.error mc =>
        (({ s with cached := mc.2 }, true) :: rest.map (fun r => (r, false)),
         some mc.1)
      | Except.ok errs =>
        let t := ModelSanityChecker.checkAll rest
        (({ s with cached := errs }, true) :: t.1, t.2)
    else
      let t := ModelSanityChecker.checkAll rest
      ((s, false) :: t.1, t.2)

/-- The per-slot effect of a completed checkAll pass, used to describe
the slots before the first raising checker. -/
def stepBatch (s : BatchSlot) : BatchSlot × Bool :=
  if s.isEnabled then
    match s.outcome with
    | Except.ok errs => ({ s with cached := errs }, true)
    | Except.error mc => ({ s with cached := mc.2 }, true)
  else (s, false)


/-- pySplit never returns the empty list. -/
theorem pySplit_ne_nil (sep : Char) (s : List Char) : pySplit sep s ≠ [] := by
  cases s with
  | nil => simp [pySplit]
  | cons c rest =>
    simp only [pySplit]
    split <;> simp

/-- pySplit of a string not containing the separator is that string alone. -/
theorem pySplit_of_not_mem (sep : Char) (s : List Char) (h : sep ∉ s) :
    pySplit sep s = [s] := by
  induction s with
  | nil => rfl
  | cons c rest ih =>
    simp only [List.mem_cons, not_or] at h
    have hc : c ≠ sep := fun hh => h.1 hh.symm
    simp [pySplit, hc, ih h.2]

/-- pySplit at an occurrence of the separator after a separator-free
piece: the piece comes off and the rest is split recursively. -/
theorem pySplit_append_sep (sep : Char) (base rest : List Char)
    (h : sep ∉ base) : pySplit sep (base ++ sep :: rest) =
    base :: pySplit sep rest := by
  induction base with
  | nil => simp [pySplit]
  | cons c bt ih =>
    simp only [List.mem_cons, not_or] at h
    have hc : c ≠ sep := fun hh => h.1 hh.symm
    have := ih h.2
    simp [pySplit, hc, this]

/-- The number of pieces of pySplit is the separator count plus one. -/
theorem pySplit_length (sep : Char) (s : List Char) :
    (pySplit sep s).length = s.count sep + 1 := by
  induction s with
  | nil => simp [pySplit]
  | cons c rest ih =>
    by_cases hc : c = sep
    · subst hc
      simp [pySplit, ih, List.count_cons]
    · have hne := pySplit_ne_nil sep rest
      simp only [pySplit, if_neg hc]
      cases hr : pySplit sep rest with
      | nil => exact absurd hr hne
      | cons g gs =>
        simp only [List.length_cons, List.tail_cons]
        rw [hr] at ih
        simp only [List.length_cons] at ih
        simp [List.count_cons, hc, ih]

/-- hasKey is membership in the key list. -/
theorem hasKey_iff (d : List (PyStr × List PyStr)) (base : PyStr) :
    hasKey d base = true ↔ base ∈ d.map Prod.fst := by
  simp only [hasKey, List.any_eq_true, List.mem_map, beq_iff_eq]

/-- The key list after insertComp. -/
theorem insertComp_keys (d : List (PyStr × List PyStr)) (base e : PyStr) :
    (insertComp d base e).map Prod.fst =
      if hasKey d base then d.map Prod.fst else d.map Prod.fst ++ [base] := by
  unfold insertComp
  split
  · next h =>
    simp only [h, if_true, List.map_map]
    apply List.map_congr_left
    intro p _
    simp only [Function.comp_apply]
    split <;> rfl
  · next h => simp [h]

/-- The key set after insertComp: base is added (a no-op when present). -/
theorem insertComp_keys_toFinset (d : List (PyStr × List PyStr))
    (base e : PyStr) :
    ((insertComp d base e).map Prod.fst).toFinset =
      insert base (d.map Prod.fst).toFinset := by
  rw [insertComp_keys]
  by_cases h : hasKey d base
  · have hmem : base ∈ (d.map Prod.fst).toFinset :=
      List.mem_toFinset.mpr ((hasKey_iff d base).mp h)
    simp [h, Finset.insert_eq_self.mpr hmem]
  · simp only [h, if_false, List.toFinset_append]
    ext x
    simp [or_comm]

/-- insertComp keeps the key list duplicate-free. -/
theorem insertComp_keys_nodup (d : List (PyStr × List PyStr))
    (base e : PyStr) (h : (d.map Prod.fst).Nodup) :
    ((insertComp d base e).map Prod.fst).Nodup := by
  rw [insertComp_keys]
  by_cases hk : hasKey d base
  · simpa [hk] using h
  · have hb : base ∉ d.map Prod.fst := fun hm => hk ((hasKey_iff d base).mpr hm)
    simp [hk, List.nodup_append, h, hb]

/-- dictVals distributes over append. -/
theorem dictVals_append (a b : List (PyStr × List PyStr)) :
    dictVals (a ++ b) = dictVals a ++ dictVals b := by
  induction a with
  | nil => rfl
  | cons p t ih => simp [dictVals, ih]

/-- Membership in the grouped values after the mapped append used by
insertComp when the key is already present. -/
theorem mem_dictVals_mapAppend (d : List (PyStr × List PyStr))
    (base e x : PyStr) :
    x ∈ dictVals (d.map (fun p => if p.1 == base then (p.1, p.2 ++ [e]) else p)) ↔
      x ∈ dictVals d ∨ (x = e ∧ hasKey d base = true) := by
  induction d with
  | nil => simp [dictVals, hasKey]
  | cons p t ih =>
    by_cases hp : (p.1 == base) = true
    · simp only [List.map_cons, if_pos hp, dictVals, List.mem_append, ih,
        hasKey, List.any_cons, hp, Bool.true_or, and_true]
      constructor
      · rintro (h | h)
        · rcases List.mem_append.mp h with h | h
          · exact Or.inl (Or.inl h)
          · simp at h; exact Or.inr h
        · rcases h with h | ⟨h, hk⟩
          · exact Or.inl (Or.inr h)
          · exact Or.inr h
      · rintro ((h | h) | h)
        · exact Or.inl (List.mem_append.mpr (Or.inl h))
        · exact Or.inr (Or.inl h)
        · exact Or.inl (List.mem_append.mpr (Or.inr (by simp [h])))
    · simp only [List.map_cons, if_neg hp, dictVals, List.mem_append, ih,
        hasKey, List.any_cons]
      have hp2 : (p.1 == base) = false := by
        cases hpe : (p.1 == base) with
        | true => exact absurd hpe hp
        | false => rfl
      simp only [hp2, Bool.false_or]
      tauto

/-- Membership in the grouped values after insertComp: exactly the old
members plus the new raw identifier. -/
theorem mem_dictVals_insertComp (d : List (PyStr × List PyStr))
    (base e x : PyStr) :
    x ∈ dictVals (insertComp d base e) ↔ x ∈ dictVals d ∨ x = e := by
  unfold insertComp
  by_cases hk : hasKey d base
  · simp only [hk, if_true, mem_dictVals_mapAppend, hk, and_true]
  · simp [hk, dictVals_append, dictVals]

/-- A list of length two consists of exactly two elements. -/
theorem exists_pair_of_length_two {α : Type} {l : List α}
    (h : l.length = 2) : ∃ a b, l = [a, b] := by
  cases l with
  | nil => simp at h
  | cons a t =>
    cases t with
    | nil => simp at h
    | cons b t2 =>
      cases t2 with
      | nil => exact ⟨a, b, rfl⟩
      | cons c t3 => simp [List.length_cons] at h

/-- The aggregation loop succeeds on identifiers that all split in
exactly two pieces. -/
theorem buildDict_ok (errs : List PyStr) :
    ∀ d, (∀ e ∈ errs, (pySplit '.' e).length = 2) →
    ∃ dd, buildDict errs d = Except.ok dd := by
  induction errs with
  | nil => intro d _; exact ⟨d, rfl⟩
  | cons e rest ih =>
    intro d h
    obtain ⟨base, comp, hsplit⟩ := exists_pair_of_length_two (h e (by simp))
    obtain ⟨dd, hdd⟩ := ih (insertComp d base e) (fun x hx => h x (by simp [hx]))
    exact ⟨dd, by simp [buildDict, hsplit, hdd]⟩

/-- Invariant of the aggregation loop: over identifiers that all split
in exactly two pieces, a successful pass keeps the keys duplicate-free,
grows the key set by the owners of the processed identifiers, and ends
with grouped values that are the old values plus the processed
identifiers. -/
theorem buildDict_spec (errs : List PyStr) :
    ∀ d dd, (∀ e ∈ errs, (pySplit '.' e).length = 2) →
    buildDict errs d = Except.ok dd →
    ((d.map Prod.fst).Nodup → (dd.map Prod.fst).Nodup) ∧
    (dd.map Prod.fst).toFinset =
      (d.map Prod.fst).toFinset ∪ (errs.map ownerOf).toFinset ∧
    (∀ x, x ∈ dictVals dd ↔ x ∈ dictVals d ∨ x ∈ errs) := by
  induction errs with
  | nil =>
    intro d dd _ hb
    simp only [buildDict] at hb
    cases hb
    simp
  | cons e rest ih =>
    intro d dd h hb
    obtain ⟨base, comp, hsplit⟩ := exists_pair_of_length_two (h e (by simp))
    have hb2 : buildDict rest (insertComp d base e) = Except.ok dd := by
      simpa [buildDict, hsplit] using hb
    have howner : ownerOf e = base := by
      simp [ownerOf, hsplit]
    have ihs := ih (insertComp d base e) dd
      (fun x hx => h x (by simp [hx])) hb2
    refine ⟨fun hnd => ihs.1 (insertComp_keys_nodup d base e hnd), ?_, ?_⟩
    · rw [ihs.2.1, insertComp_keys_toFinset, List.map_cons, howner,
        List.toFinset_cons, Finset.insert_union, Finset.union_insert]
    · intro x
      rw [ihs.2.2 x, mem_dictVals_insertComp, or_assoc, List.mem_cons]

/-- The longName of the findings built from the dict are the dict keys. -/
theorem findings_map_longName (dd : List (PyStr × List PyStr)) :
    (dd.map (fun p => mkError p.1 (some p.2))).map Error.longName =
      dd.map Prod.fst := by
  induction dd with
  | nil => rfl
  | cons p t ih => simp [mkError, ih]

/-- The components of the findings built from the dict concatenate to
the grouped values of the dict. -/
theorem allComponents_map (dd : List (PyStr × List PyStr)) :
    allComponents (dd.map (fun p => mkError p.1 (some p.2))) = dictVals dd := by
  induction dd with
  | nil => rfl
  | cons p t ih =>
    show p.2 ++ allComponents (t.map fun p => mkError p.1 (some p.2)) =
      p.2 ++ dictVals t
    rw [ih]

/-- Claim C2: for every input list of raw owner.component identifier
strings handed to an oracle-aggregated checkIt (in the oracle output
format, i.e. each identifier contains exactly one dot, so its split has
exactly two pieces), the number of emitted Findings equals the number
of distinct owners, the owners of the Findings are pairwise distinct
and are exactly the owners occurring in the input, and the union of all
Findings component lists equals the input list as a set. -/
theorem triangle_aggregation_correct (errs : List PyStr) (prev : List Error)
    (h : ∀ e ∈ errs, (pySplit '.' e).length = 2) :
    ∃ findings,
      TriangleChecker.checkIt (Except.ok errs) prev =
        (Except.ok findings, findings) ∧
      (findings.map Error.longName).Nodup ∧
      (findings.map Error.longName).toFinset = (errs.map ownerOf).toFinset ∧
      findings.length = (errs.map ownerOf).toFinset.card ∧
      (∀ x, x ∈ allComponents findings ↔ x ∈ errs) := by
  obtain ⟨dd, hdd⟩ := buildDict_ok errs [] h
  have hspec := buildDict_spec errs [] dd h hdd
  have hnd : (dd.map Prod.fst).Nodup := hspec.1 (by simp)
  have hset : (dd.map Prod.fst).toFinset = (errs.map ownerOf).toFinset := by
    simpa using hspec.2.1
  refine ⟨dd.map (fun p => mkError p.1 (some p.2)), ?_, ?_, ?_, ?_, ?_⟩
  · simp [TriangleChecker.checkIt, hdd]
  · rw [findings_map_longName]; exact hnd
  · rw [findings_map_longName]; exact hset
  · rw [List.length_map, ← hset, List.toFinset_card_of_nodup hnd,
      List.length_map]
  · intro x
    rw [allComponents_map]
    have := hspec.2.2 x
    simpa [dictVals] using this

/-- Claim C3 counterexample: an identifier with two dots does not get
split at the first dot; the tuple unpacking raises ValueError (modelled
as the error result), with the cache left empty, refuting the claim
that such identifiers are split on the first dot without raising. -/
theorem aggregation_multidot_counterexample :
    TriangleChecker.checkIt (Except.ok [['a', '.', 'b', '.', 'c']]) [] =
      (Except.error "ValueError: unpack", []) := rfl

/-- Claim C3 amended: the aggregation step of an oracle-aggregated
checkIt requires every raw identifier to contain exactly one dot; for
such identifiers the owner is the piece before the dot and the whole
raw identifier is recorded under that owner, while an identifier whose
dot count differs from one makes the unpacking raise ValueError. -/
theorem aggregation_split_amended :
    (∀ (base comp : PyStr) (prev : List Error), '.' ∉ base → '.' ∉ comp →
      TriangleChecker.checkIt (Except.ok [base ++ '.' :: comp]) prev =
        (Except.ok [mkError base (some [base ++ '.' :: comp])],
         [mkError base (some [base ++ '.' :: comp])])) ∧
    (∀ (e : PyStr) (prev : List Error), e.count '.' ≠ 1 →
      TriangleChecker.checkIt (Except.ok [e]) prev =
        (Except.error "ValueError: unpack", [])) := by
  constructor
  · intro base comp prev hb hc
    have hsplit : pySplit '.' (base ++ '.' :: comp) = [base, comp] := by
      rw [pySplit_append_sep '.' base comp hb, pySplit_of_not_mem '.' comp hc]
    simp [TriangleChecker.checkIt, buildDict, hsplit, insertComp, hasKey]
  · intro e prev hcount
    have hlen : (pySplit '.' e).length ≠ 2 := by
      rw [pySplit_length]
      omega
    rcases hps : pySplit '.' e with _ | ⟨a, t⟩
    · simp [TriangleChecker.checkIt, buildDict, hps]
    · rcases t with _ | ⟨b, t2⟩
      · simp [TriangleChecker.checkIt, buildDict, hps]
      · rcases t2 with _ | ⟨c, t3⟩
        · exact absurd (by rw [hps]; rfl) hlen
        · simp [TriangleChecker.checkIt, buildDict, hps]

/-- Witness for the amended claim C3 at concrete identifiers. -/
theorem aggregation_split_amended_witness :
    TriangleChecker.checkIt (Except.ok [['a', '.', 'b']]) [] =
      (Except.ok [mkError ['a'] (some [['a', '.', 'b']])],
       [mkError ['a'] (some [['a', '.', 'b']])]) ∧
    TriangleChecker.checkIt (Except.ok [['x', '.', 'y', '.', 'z']]) [] =
      (Except.error "ValueError: unpack", []) :=
  ⟨aggregation_split_amended.1 ['a'] ['b'] [] (by decide) (by decide),
   aggregation_split_amended.2 ['x', '.', 'y', '.', 'z'] [] (by decide)⟩

/-- Witness for claim C2 at the example input of the spec. -/
theorem triangle_aggregation_correct_witness :
    (∀ e ∈ ["|a|b.f[1]".toList, "|a|b.f[2]".toList, "|a|c.f[0]".toList],
      (pySplit '.' e).length = 2) ∧
    (∃ findings,
      TriangleChecker.checkIt
          (Except.ok ["|a|b.f[1]".toList, "|a|b.f[2]".toList,
            "|a|c.f[0]".toList]) [] = (Except.ok findings, findings) ∧
      (findings.map Error.longName).Nodup ∧
      (findings.map Error.longName).toFinset =
        (["|a|b.f[1]".toList, "|a|b.f[2]".toList,
          "|a|c.f[0]".toList].map ownerOf).toFinset ∧
      findings.length =
        (["|a|b.f[1]".toList, "|a|b.f[2]".toList,
          "|a|c.f[0]".toList].map ownerOf).toFinset.card ∧
      (∀ x, x ∈ allComponents findings ↔
        x ∈ ["|a|b.f[1]".toList, "|a|b.f[2]".toList, "|a|c.f[0]".toList])) :=
  ⟨by decide,
   triangle_aggregation_correct
     ["|a|b.f[1]".toList, "|a|b.f[2]".toList, "|a|c.f[0]".toList] []
     (by decide)⟩

/-- Claim C4 counterexample: a previously cached finding list is not
preserved when the oracle call raises; checkIt has already cleared the
cache to empty, refuting the claim that a failing checkIt leaves the
previous findings unchanged. -/
theorem checkIt_failure_cache_counterexample :
    TriangleChecker.checkIt (Except.error "RuntimeError")
        [mkError ['a'] none] = (Except.error "RuntimeError", []) ∧
    [mkError ['a'] none] ≠ ([] : List Error) := ⟨rfl, by decide⟩

/-- Claim C4 amended: checkIt clears the cached findings at entry, so
on success the cache equals the returned findings, but on an oracle or
aggregation failure the cache is left empty rather than holding the
previous findings; the one exception is the ZeroAreaFaceChecker
settings read, which precedes the clear, so a missing settings object
raises while the previous findings stay cached. -/
theorem checkIt_cache_replacement_amended :
    (∀ (oracle : Except String (List PyStr)) (prev : List Error) (m : String),
      (TriangleChecker.checkIt oracle prev).1 = Except.error m →
      (TriangleChecker.checkIt oracle prev).2 = []) ∧
    (∀ (oracle : Except String (List PyStr)) (prev fs : List Error),
      (TriangleChecker.checkIt oracle prev).1 = Except.ok fs →
      (TriangleChecker.checkIt oracle prev).2 = fs) ∧
    (∀ (checkMesh5 : Rat → Except String (List PyStr)) (prev : List Error),
      (ZeroAreaFaceChecker.checkIt none checkMesh5 prev).2 = prev ∧
      ∃ m, (ZeroAreaFaceChecker.checkIt none checkMesh5 prev).1 =
        Except.error m) := by
  refine ⟨?_, ?_, ?_⟩
  · intro oracle prev m h
    cases oracle with
    | error m2 => rfl
    | ok errs =>
      simp only [TriangleChecker.checkIt] at h ⊢
      cases hb : buildDict errs [] with
      | error m2 => simp [hb]
      | ok d => rw [hb] at h; simp at h
  · intro oracle prev fs h
    cases oracle with
    | error m2 => simp [TriangleChecker.checkIt] at h
    | ok errs =>
      simp only [TriangleChecker.checkIt] at h ⊢
      cases hb : buildDict errs [] with
      | error m2 => rw [hb] at h; simp at h
      | ok d =>
        rw [hb] at h
        simp at h ⊢
        exact h
  · intro cm prev
    exact ⟨rfl, ⟨_, rfl⟩⟩

/-- Witness for the amended claim C4 at concrete inputs. -/
theorem checkIt_cache_replacement_amended_witness :
    (TriangleChecker.checkIt (Except.error "RuntimeError")
        [mkError ['a'] none]).2 = [] ∧
    (ZeroAreaFaceChecker.checkIt none (fun _ => Except.ok [])
        [mkError ['a'] none]).2 = [mkError ['a'] none] :=
  ⟨checkIt_cache_replacement_amended.1 _ _ "RuntimeError" rfl,
   (checkIt_cache_replacement_amended.2.2 _ _).1⟩

/-- Claim C5: calling checkIt with an empty objects list must return
empty without raising. The code violates this for the two checkers that
iterate the cmds.listRelatives result without the or-empty guard used
by their siblings: when Maya returns None (as it does for an empty
object list), NonmanifoldVertexChecker.checkIt and
IntermediateObjectChecker.checkIt raise TypeError, while
UnusedLayerChecker.checkIt (which ignores its objects argument) indeed
returns without raising. -/
theorem empty_objects_code_bug
    (listRelativesMesh : List PyStr → Option (List PyStr))
    (polyInfoNmv : PyStr → Except String (Option (List PyStr)))
    (getAttrIntermediate : PyStr → Bool)
    (lsDisplayLayers : List PyStr)
    (layerMembers : PyStr → Option (List PyStr))
    (hnone : listRelativesMesh [] = none)
    (hdef : defaultLayer ∈ lsDisplayLayers) :
    (NonmanifoldVertexChecker.checkIt listRelativesMesh polyInfoNmv []).1 =
      Except.error "TypeError: NoneType object is not iterable" ∧
    (IntermediateObjectChecker.checkIt listRelativesMesh
        getAttrIntermediate []).1 =
      Except.error "TypeError: NoneType object is not iterable" ∧
    (∃ es, UnusedLayerChecker.checkIt lsDisplayLayers layerMembers [] =
      (Except.ok es, es)) := by
  refine ⟨?_, ?_, ?_⟩
  · simp [NonmanifoldVertexChecker.checkIt, hnone]
  · simp [IntermediateObjectChecker.checkIt, hnone]
  · simp only [UnusedLayerChecker.checkIt, if_pos hdef]
    exact ⟨_, rfl⟩

/-- Witness for claim C5 at concrete collaborator functions. -/
theorem empty_objects_code_bug_witness :
    (NonmanifoldVertexChecker.checkIt (fun _ => none)
        (fun _ => Except.ok none) []).1 =
      Except.error "TypeError: NoneType object is not iterable" ∧
    (IntermediateObjectChecker.checkIt (fun _ => none)
        (fun _ => false) []).1 =
      Except.error "TypeError: NoneType object is not iterable" ∧
    (∃ es, UnusedLayerChecker.checkIt [defaultLayer] (fun _ => some []) [] =
      (Except.ok es, es)) :=
  empty_objects_code_bug _ _ _ _ _ rfl (by decide)

/-- Claim C6 counterexample: ShapeNameChecker is fixable, yet its
fixIt raises at the first finding whose owner no longer exists (the
unguarded cmds.listRelatives call), aborting before the remaining,
still valid finding is processed. -/
theorem stale_owner_counterexample :
    ShapeNameChecker.isFixable = true ∧
    ShapeNameChecker.fixIt
      (fun shape => if shape = ['A'] then Except.ok ['P']
        else Except.error "ValueError: No object matches name")
      [mkError ['B'] none, mkError ['A'] none] =
      Except.error "ValueError: No object matches name" := ⟨rfl, rfl⟩

/-- Claim C6 amended: stale-owner skipping holds only for the fixers
that guard each finding (VertexPntsChecker checks objExists and
processes exactly the findings whose owner still exists, never
raising); ShapeNameChecker and LockedTransformChecker have no guard and
raise at the first stale owner, aborting the remaining findings. -/
theorem stale_owner_skip_amended :
    (∀ (objExists : PyStr → Bool) (errors : List Error),
      VertexPntsChecker.fixIt objExists errors =
        (errors.filter (fun e => objExists e.longName)).map Error.longName) ∧
    (∀ (parentOf : PyStr → Except String PyStr) (e : Error)
        (rest : List Error) (m : String),
      parentOf e.longName = Except.error m →
      ShapeNameChecker.fixIt parentOf (e :: rest) = Except.error m) ∧
    (∀ (objExists : PyStr → Bool) (e : Error) (rest : List Error),
      objExists e.longName = false →
      LockedTransformChecker.fixIt objExists (e :: rest) =
        Except.error "ValueError: setAttr on missing object") := by
  refine ⟨?_, ?_, ?_⟩
  · intro objExists errors
    induction errors with
    | nil => rfl
    | cons e rest ih =>
      by_cases he : objExists e.longName
      · simp [VertexPntsChecker.fixIt, he, ih, List.filter_cons]
      · simp [VertexPntsChecker.fixIt, he, ih, List.filter_cons]
  · intro parentOf e rest m h
    simp [ShapeNameChecker.fixIt, h]
  · intro objExists e rest h
    simp [LockedTransformChecker.fixIt, h]

/-- Witness for the amended claim C6 at concrete scenes. -/
theorem stale_owner_skip_amended_witness :
    VertexPntsChecker.fixIt (fun _ => false) [mkError ['A'] none] =
      (([mkError ['A'] none].filter
        (fun e => (fun _ => false) e.longName)).map Error.longName) ∧
    ShapeNameChecker.fixIt
        (fun _ => Except.error "ValueError: No object matches name")
        [mkError ['B'] none] =
      Except.error "ValueError: No object matches name" ∧
    LockedTransformChecker.fixIt (fun _ => false) [mkError ['B'] none] =
      Except.error "ValueError: setAttr on missing object" :=
  ⟨stale_owner_skip_amended.1 _ _,
   stale_owner_skip_amended.2.1 _ _ _ _ rfl,
   stale_owner_skip_amended.2.2 _ _ _ rfl⟩

/-- Claim C7 counterexample: the cached findings were produced by a
check whose target was object A, but at fix time the selection head is
B, so the re-check after fixIt runs against the subtree of B, not the
target that produced the cached findings. -/
theorem fix_recheck_target_counterexample :
    (CheckerWidget.check
        { selection := [['B']], childTransforms := fun _ => [] }
        (fun objs => if objs = [['A']] then [] else [mkError ['B'] none])
        (some ['A']) { isEnabled := true, errors := [] }).2 = some [['A']] ∧
    (CheckerWidget.fix
        { selection := [['B']], childTransforms := fun _ => [] }
        (fun objs => if objs = [['A']] then [] else [mkError ['B'] none])
        ((CheckerWidget.check
            { selection := [['B']], childTransforms := fun _ => [] }
            (fun objs => if objs = [['A']] then [] else [mkError ['B'] none])
            (some ['A']) { isEnabled := true, errors := [] }).1)).2.2 =
      some [['B']] ∧
    (some [['B']] : Option (List PyStr)) ≠ some [['A']] := ⟨rfl, rfl, by decide⟩

/-- Claim C7 amended: for an enabled checker, fix calls fixIt and
then re-runs check with no path argument, so the re-check target is the
current selection head plus its descendant transforms (skipped with a
warning when the selection is empty); it is not tied to the target that
produced the cached findings. -/
theorem fix_recheck_selection_amended (ctx : SceneCtx)
    (chk : List PyStr → List Error) (st : CheckerWidgetState)
    (hen : st.isEnabled = true) :
    (ctx.selection = [] → CheckerWidget.fix ctx chk st = (st, true, none)) ∧
    (∀ s srest, ctx.selection = s :: srest →
      CheckerWidget.fix ctx chk st =
        ({ st with errors := chk (ctx.childTransforms s ++ [s]) }, true,
         some (ctx.childTransforms s ++ [s]))) := by
  constructor
  · intro hsel
    simp [CheckerWidget.fix, CheckerWidget.check, hen, hsel]
  · intro s srest hsel
    simp [CheckerWidget.fix, CheckerWidget.check, hen, hsel]

/-- Witness for the amended claim C7 at a concrete scene context. -/
theorem fix_recheck_selection_amended_witness :
    CheckerWidget.fix { selection := [['B']], childTransforms := fun _ => [] }
        (fun _ => []) { isEnabled := true, errors := [mkError ['a'] none] } =
      ({ isEnabled := true, errors := [] }, true, some [['B']]) :=
  (fix_recheck_selection_amended
      { selection := [['B']], childTransforms := fun _ => [] }
      (fun _ => []) { isEnabled := true, errors := [mkError ['a'] none] }
      rfl).2 ['B'] [] rfl

/-- Claim C8 counterexample: with isEnabled false, the manual check
entry point neither invokes checkIt (the reported target is none and
the cache is unchanged even though checkIt would have produced a
finding) nor does fix invoke fixIt, refuting the claim that manual
invocation ignores the enablement flag. -/
theorem manual_disabled_counterexample :
    CheckerWidget.check
        { selection := [['A']], childTransforms := fun _ => [] }
        (fun _ => [mkError ['X'] none]) (some ['A'])
        { isEnabled := false, errors := [] } =
      ({ isEnabled := false, errors := [] }, none) ∧
    CheckerWidget.fix
        { selection := [['A']], childTransforms := fun _ => [] }
        (fun _ => [mkError ['X'] none])
        { isEnabled := false, errors := [] } =
      ({ isEnabled := false, errors := [] }, false, none) := ⟨rfl, rfl⟩

/-- Claim C8 amended: manual single-checker check and fix honor
isEnabled exactly like batch runs do: when the flag is false both
CheckerWidget.check and CheckerWidget.fix return immediately, invoking
neither checkIt nor fixIt and leaving the cached findings unchanged. -/
theorem manual_respects_enabled_amended (ctx : SceneCtx)
    (chk : List PyStr → List Error) (path : Option PyStr)
    (st : CheckerWidgetState) (hdis : st.isEnabled = false) :
    CheckerWidget.check ctx chk path st = (st, none) ∧
    CheckerWidget.fix ctx chk st = (st, false, none) := by
  constructor
  · simp [CheckerWidget.check, hdis]
  · simp [CheckerWidget.fix, hdis]

/-- Witness for the amended claim C8 on a disabled checker. -/
theorem manual_respects_enabled_amended_witness :
    CheckerWidget.check
        { selection := [], childTransforms := fun _ => [] } (fun _ => [])
        (some ['A']) { isEnabled := false, errors := [mkError ['a'] none] } =
      ({ isEnabled := false, errors := [mkError ['a'] none] }, none) ∧
    CheckerWidget.fix
        { selection := [], childTransforms := fun _ => [] } (fun _ => [])
        { isEnabled := false, errors := [mkError ['a'] none] } =
      ({ isEnabled := false, errors := [mkError ['a'] none] }, false, none) :=
  manual_respects_enabled_amended _ _ _ _ rfl

/-- Toggling leaves a widget of a different category untouched. -/
theorem toggleOne_of_ne (category : String) (state : Nat) (w : BaseChecker)
    (h : w.category ≠ category) :
    Separator.toggleOne category state w = w := by
  unfold Separator.toggleOne
  rw [if_neg]
  exact fun hb2 => h (beq_iff_eq.mp hb2).symm

/-- Toggling sets the matching widget enablement to state == 2. -/
theorem toggleOne_isEnabled_of_eq (category : String) (state : Nat)
    (w : BaseChecker) (h : w.category = category) :
    (Separator.toggleOne category state w).isEnabled = (state == 2) := by
  unfold Separator.toggleOne
  rw [if_pos (beq_iff_eq.mpr h.symm)]
  cases hst : (state == 2) <;> simp [hst]

/-- Claim C9: toggling one category checkbox changes isEnabled only
for checkers whose category string equals that category (setting it to
whether the Qt state is checked); every checker of any other category
is left entirely unchanged by the toggle. -/
theorem category_toggle_scope (category : String) (state : Nat)
    (ws : List BaseChecker) (i : Nat) (hi : i < ws.length)
    (hi2 : i < (Separator.checkboxToggle category state ws).length) :
    ((ws.get ⟨i, hi⟩).category ≠ category →
      (Separator.checkboxToggle category state ws).get ⟨i, hi2⟩ =
        ws.get ⟨i, hi⟩) ∧
    ((ws.get ⟨i, hi⟩).category = category →
      ((Separator.checkboxToggle category state ws).get ⟨i, hi2⟩).isEnabled =
        (state == 2)) := by
  have hmap : (Separator.checkboxToggle category state ws).get ⟨i, hi2⟩ =
      Separator.toggleOne category state (ws.get ⟨i, hi⟩) := by
    simp [Separator.checkboxToggle, List.get_eq_getElem, List.getElem_map]
  rw [hmap]
  exact ⟨fun hne => toggleOne_of_ne category state _ hne,
    fun heq => toggleOne_isEnabled_of_eq category state _ heq⟩

/-- Witness for claim C9: the first registry entry is not in the UV
category and survives a UV toggle unchanged. -/
theorem category_toggle_scope_witness :
    (CHECKERS.get ⟨0, by decide⟩).category ≠ "UV" ∧
    (Separator.checkboxToggle "UV" 0 CHECKERS).get ⟨0, by decide⟩ =
      CHECKERS.get ⟨0, by decide⟩ :=
  ⟨by decide, (category_toggle_scope "UV" 0 CHECKERS 0 (by decide)
      (by decide)).1 (by decide)⟩

/-- Claim C10: for any two checkers a and b, including ones with
different names and categories, the Python eq method returns True and
the ne method returns False, because eq compares the name of self with
itself; equality never distinguishes two checkers. -/
theorem checker_equality_degenerate (a b : BaseChecker) :
    BaseChecker.pyEq a b = true ∧ BaseChecker.pyNe a b = false := by
  constructor
  · simp [BaseChecker.pyEq]
  · simp [BaseChecker.pyNe, BaseChecker.pyEq]

/-- Claim C1 counterexample: with two enabled checkers where the
first one raises during checkIt, checkAll propagates the exception and
the second, enabled checker is never invoked (its invocation flag is
false), refuting the claim that checkers after the failing one still
run. -/
theorem checkAll_isolation_counterexample :
    (ModelSanityChecker.checkAll
        [{ isEnabled := true, outcome := Except.error ("RuntimeError", []),
           cached := [] },
         { isEnabled := true, outcome := Except.ok [], cached := [] }]) =
      ([({ isEnabled := true, outcome := Except.error ("RuntimeError", []),
            cached := [] }, true),
        ({ isEnabled := true, outcome := Except.ok [], cached := [] },
          false)],
       some "RuntimeError") := rfl

/-- Claim C1 amended: checkAll has no exception handling around
widget.check, so at the first enabled checker whose checkIt raises the
batch aborts: the checkers before it have run and cached their fresh
findings, the raising checker is left with whatever cache its checkIt
left behind, and every later checker, enabled or not, is not invoked
and keeps its previous cache, while the exception escapes checkAll. -/
theorem checkAll_aborts_at_first_raise (pre : List BatchSlot) (s : BatchSlot)
    (rest : List BatchSlot) (m : String) (c : List Error)
    (hs : s.isEnabled = true) (ho : s.outcome = Except.error (m, c))
    (hpre : ∀ p ∈ pre, p.isEnabled = true → ∃ l, p.outcome = Except.ok l) :
    ModelSanityChecker.checkAll (pre ++ s :: rest) =
      (pre.map stepBatch ++
        ({ s with cached := c }, true) :: rest.map (fun r => (r, false)),
       some m) := by
  induction pre with
  | nil =>
    simp only [List.nil_append, List.map_nil]
    simp [ModelSanityChecker.checkAll, hs, ho]
  | cons p pt ih =>
    have hrec := ih (fun q hq => hpre q (List.mem_cons_of_mem p hq))
    cases hpe : p.isEnabled with
    | false =>
      simp [ModelSanityChecker.checkAll, hpe, stepBatch, hrec,
        List.cons_append]
    | true =>
      obtain ⟨l, hl⟩ := hpre p (List.mem_cons_self p pt) hpe
      simp [ModelSanityChecker.checkAll, hpe, hl, stepBatch, hrec,
        List.cons_append]

/-- Witness for the amended claim C1 on a concrete three-slot
registry. -/
theorem checkAll_aborts_at_first_raise_witness :
    ModelSanityChecker.checkAll
        [{ isEnabled := false, outcome := Except.ok [], cached := [] },
         { isEnabled := true, outcome := Except.error ("RuntimeError", []),
           cached := [mkError ['a'] none] },
         { isEnabled := true, outcome := Except.ok [], cached := [] }] =
      ([({ isEnabled := false, outcome := Except.ok [], cached := [] },
          false),
        ({ isEnabled := true, outcome := Except.error ("RuntimeError", []),
           cached := [] }, true),
        ({ isEnabled := true, outcome := Except.ok [], cached := [] },
          false)],
       some "RuntimeError") :=
  checkAll_aborts_at_first_raise
    [{ isEnabled := false, outcome := Except.ok [], cached := [] }]
    { isEnabled := true, outcome := Except.error ("RuntimeError", []),
      cached := [mkError ['a'] none] }
    [{ isEnabled := true, outcome := Except.ok [], cached := [] }]
    "RuntimeError" [] rfl rfl
    (by intro p hp hen; simp at hp; subst hp; simp at hen)

end SanityChecker
